import Mathlib

/-
Verification of the mini-idp resource assembly and reconciliation engine
against its natural-language specification.

The Python sources are embedded shallowly:

* machine integers of the source are modelled as Int (Python integers are
  unbounded, and the CLI accepts negative values for numeric options);
* Python floor division (the // operator) is Int.fdiv;
* functions that can raise are modelled with Except, where the error type
  PyError enumerates the exception classes the embedded code distinguishes;
* the Kubernetes client and the template builder live outside src/ and are
  treated as external collaborators: their behaviour is a parameter of the
  embedded functions (a function from the request to an Except outcome),
  exactly as the spec treats them (injectable boundaries);
* Python keyword-argument binding is modelled explicitly for the two call
  sites whose keyword lists do not match the callee signature, since the
  TypeError raised at binding time is observable behaviour of the program.
-/

namespace MiniIDP

/-- Exception classes distinguished by the embedded code. The payload of
nameError and typeError is the offending identifier; apiException carries the
HTTP status of the Kubernetes API error. -/
inductive PyError where
  | nameError (ident : String)
  | typeError (ident : String)
  | valueError
  | usageError
  | apiException (status : Int)
deriving DecidableEq, Repr

/-- Resolved autoscaling policy: the (min, max, cpu) triple the deploy command
passes to the resource builder. Corresponds to final_min_replicas,
final_max_replicas, final_cpu_target in cli/commands/deploy.py. -/
structure ResolvedPolicy where
  minReplicas : Int
  maxReplicas : Int
  cpuTarget : Int
deriving DecidableEq, Repr

/-- Embedding of _calculate_hpa_defaults (cli/commands/deploy.py, lines 15-54):
derives the (min, max) pair from the deployment type, the replica count and the
optional user-supplied bounds, with the final min-wins repair step. -/
def calculateHpaDefaults (type : String) (replicas : Int)
    (minReplicas maxReplicas : Option Int) : Int × Int :=
  let calculatedMin : Int :=
    match minReplicas with
    | some m => m
    | none => if replicas > 1 then max 1 (Int.fdiv replicas 2) else 1
  let calculatedMax : Int :=
    match maxReplicas with
    | some m => m
    | none =>
      let multiplier : Int := if type = "service" then 3 else 2
      max 10 (replicas * multiplier)
  let repairedMax : Int :=
    if calculatedMin > calculatedMax then calculatedMin * 2 else calculatedMax
  (calculatedMin, repairedMax)

/-- Embedding of _get_cpu_target_default (cli/commands/deploy.py, lines 57-69). -/
def getCpuTargetDefault (type : String) : Int :=
  if type = "worker" then 60 else 70

/-- Embedding of the policy resolution performed by the deploy command
(cli/commands/deploy.py, lines 520-539) and identically by the API router
create_deployment (api/routers/deployments.py, lines 56-78): when autoscaling
is enabled and the type is not job, the calculated defaults are combined with
the user-supplied values (user value wins); otherwise fixed fallbacks 1/10/70
are used for unspecified fields. -/
def resolveDeployPolicy (type : String) (replicas : Int) (autoscaling : Bool)
    (minReplicas maxReplicas cpuTarget : Option Int) : ResolvedPolicy :=
  if autoscaling = true ∧ type ≠ "job" then
    let c := calculateHpaDefaults type replicas minReplicas maxReplicas
    { minReplicas := minReplicas.getD c.1
      maxReplicas := maxReplicas.getD c.2
      cpuTarget := cpuTarget.getD (getCpuTargetDefault type) }
  else
    { minReplicas := minReplicas.getD 1
      maxReplicas := maxReplicas.getD 10
      cpuTarget := cpuTarget.getD 70 }

/-- Reference definition of the resolved policy exactly as the claim about the
derivation rules words it: min is the explicit value, else max(1, replicas // 2)
for replicas > 1, else 1; max is the explicit value, else
max(10, replicas * (3 if service else 2)); cpu is the explicit value, else 60
for worker and 70 otherwise. It has no repair clause. -/
def claimedPolicy (type : String) (replicas : Int)
    (minReplicas maxReplicas cpuTarget : Option Int) : ResolvedPolicy :=
  { minReplicas :=
      minReplicas.getD (if replicas > 1 then max 1 (Int.fdiv replicas 2) else 1)
    maxReplicas :=
      maxReplicas.getD (max 10 (replicas * (if type = "service" then 3 else 2)))
    cpuTarget := cpuTarget.getD (if type = "worker" then 60 else 70) }

/-- Reference definition amended with the repair clause the code actually has:
when maxReplicas is unspecified and the (explicit or derived) minimum exceeds
the derived maximum, the maximum becomes twice the minimum. -/
def claimedPolicyRepaired (type : String) (replicas : Int)
    (minReplicas maxReplicas cpuTarget : Option Int) : ResolvedPolicy :=
  let m : Int :=
    minReplicas.getD (if replicas > 1 then max 1 (Int.fdiv replicas 2) else 1)
  let dmax : Int := max 10 (replicas * (if type = "service" then 3 else 2))
  { minReplicas := m
    maxReplicas := maxReplicas.getD (if m > dmax then m * 2 else dmax)
    cpuTarget := cpuTarget.getD (if type = "worker" then 60 else 70) }

/-- Resource document as the applier sees it: the kind string and the
metadata.name, the only two fields cli/commands/deploy.py reads from a
document. -/
structure ResourceDoc where
  kind : String
  name : String
deriving DecidableEq, Repr

/-- Parameter names of _build_resources, transcribed from its signature
(cli/commands/deploy.py, lines 72-89). -/
def buildResourcesParams : List String :=
  ["template_builder", "type", "name", "image", "namespace", "port", "replicas",
   "template", "env", "secret", "autoscaling", "min_replicas", "max_replicas",
   "cpu_target", "memory_target", "metrics"]

/-- Keyword names used at the call of _build_resources inside
_build_and_validate_resources (cli/commands/deploy.py, lines 621-640), in
source order. -/
def buildResourcesCallKwargs : List String :=
  ["template_builder", "type", "name", "image", "namespace", "port", "replicas",
   "template", "env", "secret", "autoscaling", "min_replicas", "max_replicas",
   "cpu_target", "memory_target", "metrics", "logging", "logging_environment"]

/-- Python keyword binding: calling a function with a keyword argument that is
not among its parameter names raises TypeError naming the first such keyword.
All call sites modelled here pass a value for every required parameter, so
only the unexpected-keyword check is relevant. -/
def bindKwargs (params kwargs : List String) : Except PyError Unit :=
  match kwargs.find? (fun k => !(params.contains k)) with
  | some k => Except.error (PyError.typeError k)
  | none => Except.ok ()

/-- Names bound at module level in cli/commands/deploy.py: the imports at the
top of the file and the functions the module defines. The identifier logging
is absent (the logging module is never imported there). -/
def deployModuleGlobals : List String :=
  ["sys", "List", "Optional", "click", "yaml", "K8sClient", "TemplateBuilder",
   "_calculate_hpa_defaults", "_get_cpu_target_default", "_build_resources",
   "_apply_resources", "_apply_single_resource", "_apply_deployment_resource",
   "_apply_service_resource", "_apply_job_resource", "_apply_cronjob_resource",
   "_apply_hpa_resource", "_apply_servicemonitor_resource", "_deploy_gitops",
   "deploy", "_validate_deploy_options", "_build_and_validate_resources",
   "_display_deployment_info", "_display_dry_run", "_deploy_to_cluster"]

/-- Python builtins the embedded functions refer to. -/
def pyBuiltins : List String :=
  ["list", "tuple", "max", "min", "len", "ValueError", "Exception", "print"]

/-- Python name resolution in a function of the deploy module: local scope,
then module globals, then builtins. -/
def resolvesInDeploy (locals : List String) (n : String) : Bool :=
  locals.contains n || deployModuleGlobals.contains n || pyBuiltins.contains n

/-- Embedding of the body of _build_resources (cli/commands/deploy.py, lines
114-163), entered with its parameters bound. Each of the three type branches
evaluates the names logging and logging_environment as arguments of the
template-builder call; the first name that does not resolve raises NameError
before the template builder (an external collaborator, modelled by render) is
ever invoked. An unknown type raises ValueError. -/
def buildResourcesBody (render : String → List ResourceDoc) (type : String) :
    Except PyError (List ResourceDoc) :=
  if type = "service" ∨ type = "job" ∨ type = "worker" then
    if resolvesInDeploy buildResourcesParams "logging" = false then
      Except.error (PyError.nameError "logging")
    else if resolvesInDeploy buildResourcesParams "logging_environment" = false then
      Except.error (PyError.nameError "logging_environment")
    else
      Except.ok (render type)
  else
    Except.error PyError.valueError

/-- The invocation of _build_resources as performed by
_build_and_validate_resources: keyword binding against the signature first,
then the body. -/
def buildResourcesInvoke (render : String → List ResourceDoc) (type : String) :
    Except PyError (List ResourceDoc) :=
  match bindKwargs buildResourcesParams buildResourcesCallKwargs with
  | Except.error e => Except.error e
  | Except.ok _ => buildResourcesBody render type

/-- Outcome of _build_and_validate_resources: either a resource list returned
normally, or process termination through sys.exit. -/
inductive BuildOutcome where
  | resources (docs : List ResourceDoc)
  | exitCode (code : Int)
deriving DecidableEq, Repr

/-- Embedding of _build_and_validate_resources (cli/commands/deploy.py, lines
596-643): any exception from the _build_resources invocation is caught, an
error line is printed, and the process exits with code 1. -/
def buildAndValidateResources (render : String → List ResourceDoc) (type : String) :
    BuildOutcome :=
  match buildResourcesInvoke render type with
  | Except.ok docs => BuildOutcome.resources docs
  | Except.error _ => BuildOutcome.exitCode 1

/-- Decision of whether the result of an invocation is a NameError. -/
def raisesNameError (r : Except PyError (List ResourceDoc)) : Bool :=
  match r with
  | Except.error (PyError.nameError _) => true
  | _ => false

/-- Per-resource event recorded by the applier model: the handler applied the
document to the cluster, the handler raised, or the kind had no handler and
the document was skipped with a warning. -/
inductive ApplyEv where
  | applied (kind name : String)
  | failedApply (kind name : String)
  | skippedKind (kind : String)
deriving DecidableEq, Repr

/-- The six kinds with handlers in the dispatch dict of _apply_single_resource
(cli/commands/deploy.py, lines 199-206). -/
def fixedKinds : List String :=
  ["Deployment", "Service", "Job", "CronJob", "HorizontalPodAutoscaler",
   "ServiceMonitor"]

/-- Embedding of _apply_single_resource (cli/commands/deploy.py, lines
197-212). The cluster response to a handler call is the external parameter
beh; a kind outside the dispatch dict is only echoed as skipped and nothing
is sent to the cluster. -/
def applySingleResource (beh : ResourceDoc → Except PyError Unit)
    (r : ResourceDoc) : ApplyEv × Option PyError :=
  if fixedKinds.contains r.kind then
    match beh r with
    | Except.ok _ => (ApplyEv.applied r.kind r.name, none)
    | Except.error e => (ApplyEv.failedApply r.kind r.name, some e)
  else
    (ApplyEv.skippedKind r.kind, none)

/-- Embedding of _apply_resources (cli/commands/deploy.py, lines 166-194):
documents are attempted strictly in list order; an exception from
_apply_single_resource is echoed and re-raised, aborting the loop. The result
is the list of events for the documents attempted and the propagated error,
if any. -/
def applyResources (beh : ResourceDoc → Except PyError Unit) :
    List ResourceDoc → List ApplyEv × Option PyError
  | [] => ([], none)
  | r :: rest =>
    match applySingleResource beh r with
    | (ev, some e) => ([ev], some e)
    | (ev, none) =>
      let tail := applyResources beh rest
      (ev :: tail.1, tail.2)

/-- Embedding of _deploy_gitops (cli/commands/deploy.py, lines 302-348): a
missing or empty git repo URL raises ValueError; otherwise the ArgoCD
application is built and applied through the custom-resource client call,
whose outcome is the external parameter argoBeh. -/
def deployGitops (gitRepo gitPath : Option String)
    (argoBeh : Except PyError Unit) : Except PyError Unit :=
  if gitRepo = none ∨ gitRepo = some "" then Except.error PyError.valueError
  else argoBeh

/-- Outcome of _deploy_to_cluster: the apply events, whether the ArgoCD
application was registered, whether a GitOps warning was printed, and the
process exit code if the direct apply failed. -/
structure ClusterOutcome where
  events : List ApplyEv
  gitopsApplied : Bool
  gitopsWarning : Bool
  exitCode : Option Int
deriving DecidableEq, Repr

/-- Embedding of _deploy_to_cluster (cli/commands/deploy.py, lines 680-713):
a failure of the direct apply exits the process with code 1 (so the GitOps
block is never reached); after a successful apply, a GitOps failure is caught
and reported as a warning only. -/
def deployToCluster (beh : ResourceDoc → Except PyError Unit)
    (argoBeh : Except PyError Unit) (docs : List ResourceDoc) (gitops : Bool)
    (gitRepo gitPath : Option String) : ClusterOutcome :=
  let applyRun := applyResources beh docs
  match applyRun.2 with
  | some _ =>
    { events := applyRun.1, gitopsApplied := false, gitopsWarning := false,
      exitCode := some 1 }
  | none =>
    if gitops then
      match deployGitops gitRepo gitPath argoBeh with
      | Except.ok _ =>
        { events := applyRun.1, gitopsApplied := true, gitopsWarning := false,
          exitCode := none }
      | Except.error _ =>
        { events := applyRun.1, gitopsApplied := false, gitopsWarning := true,
          exitCode := none }
    else
      { events := applyRun.1, gitopsApplied := false, gitopsWarning := false,
        exitCode := none }

/-- Arguments of the CLI deploy command relevant to the embedded control flow. -/
structure DeployArgs where
  type : String
  port : Option Int
  replicas : Int
  autoscaling : Bool
  minReplicas : Option Int
  maxReplicas : Option Int
  cpuTarget : Option Int
  dryRun : Bool
  gitops : Bool
  gitRepo : Option String
  gitPath : Option String
deriving DecidableEq, Repr

/-- Event in the trace of one deploy invocation: the body of
_build_and_validate_resources ran, a cluster apply event happened, or the
ArgoCD application was registered. -/
inductive CliEv where
  | buildCall
  | cluster (ev : ApplyEv)
  | argocdApplied
deriving DecidableEq, Repr

/-- Outcome of the CLI deploy command: a click UsageError raised by
validation, process termination via sys.exit, or normal completion. -/
inductive CliOutcome where
  | usageError
  | exitCode (code : Int)
  | done
deriving DecidableEq, Repr

/-- Embedding of the deploy command body (cli/commands/deploy.py, lines
513-587): validate options, resolve the autoscaling policy, build resources
(exiting on error), return early on dry run, otherwise deploy to the cluster.
The second component is the trace of build and cluster events, in order. -/
def cliDeploy (render : String → List ResourceDoc)
    (beh : ResourceDoc → Except PyError Unit) (argoBeh : Except PyError Unit)
    (a : DeployArgs) : CliOutcome × List CliEv :=
  if a.type = "service" ∧ (a.port = none ∨ a.port = some 0) then
    (CliOutcome.usageError, [])
  else
    let _policy := resolveDeployPolicy a.type a.replicas a.autoscaling
      a.minReplicas a.maxReplicas a.cpuTarget
    match buildAndValidateResources render a.type with
    | BuildOutcome.exitCode c => (CliOutcome.exitCode c, [CliEv.buildCall])
    | BuildOutcome.resources docs =>
      if a.dryRun then (CliOutcome.done, [CliEv.buildCall])
      else
        let o := deployToCluster beh argoBeh docs a.gitops a.gitRepo a.gitPath
        match o.exitCode with
        | some c =>
          (CliOutcome.exitCode c, CliEv.buildCall :: o.events.map CliEv.cluster)
        | none =>
          (CliOutcome.done,
            CliEv.buildCall :: o.events.map CliEv.cluster ++
              (if o.gitopsApplied then [CliEv.argocdApplied] else []))

/-- Parameter names of _build_and_validate_resources, transcribed from its
signature (cli/commands/deploy.py, lines 596-614). -/
def buildAndValidateParams : List String :=
  ["config", "type", "name", "image", "namespace", "port", "replicas",
   "template", "env", "secret", "autoscaling", "min_replicas", "max_replicas",
   "cpu_target", "memory_target", "metrics", "logging", "logging_environment"]

/-- Keyword names used at the call of _build_and_validate_resources in the API
router create_deployment (api/routers/deployments.py, lines 84-109), in source
order. -/
def apiBuildCallKwargs : List String :=
  ["config", "type", "name", "image", "namespace", "port", "replicas",
   "template", "env", "secret", "autoscaling", "min_replicas", "max_replicas",
   "cpu_target", "memory_target", "metrics", "metrics_path", "metrics_port",
   "metrics_interval", "logging", "logging_environment", "external_secret",
   "secret_store", "secret_refresh_interval"]

/-- Parameter names of _deploy_gitops (cli/commands/deploy.py, lines 302-310). -/
def deployGitopsParams : List String :=
  ["name", "namespace", "git_repo", "git_path", "config", "client", "click_obj"]

/-- Keyword names used at the call of _deploy_gitops in the API router
(api/routers/deployments.py, lines 138-152), in source order. -/
def apiGitopsCallKwargs : List String :=
  ["name", "namespace", "git_repo", "git_path", "git_branch", "argocd_project",
   "argocd_namespace", "auto_sync", "prune", "self_heal", "config", "client",
   "click_obj"]

/-- Fields of the API DeploymentRequest relevant to the embedded control flow
(api/models.py). -/
structure ApiRequest where
  type : String
  port : Option Int
  replicas : Int
  autoscaling : Bool
  minReplicas : Option Int
  maxReplicas : Option Int
  cpuTarget : Option Int
  dryRun : Bool
  gitops : Bool
  gitRepo : Option String
  gitPath : Option String
deriving DecidableEq, Repr

/-- Result of the API create_deployment handler: a success response (with the
dry-run flag that produced it), an HTTP error response, or process
termination through an uncaught SystemExit. -/
inductive ApiResult where
  | created (dryRun : Bool)
  | httpErr (status : Int)
  | processExit (code : Int)
deriving DecidableEq, Repr

/-- Embedding of create_deployment (api/routers/deployments.py, lines 29-174):
port validation returns 400; the call of _build_and_validate_resources is
keyword-bound against its signature, and a TypeError there is caught by the
outer handler as a 500 before the dry-run flag is consulted; the remaining
branches embed the rest of the handler (apply errors and GitOps errors both
become 500, a missing repo under gitops becomes 400). -/
def apiCreateDeployment (render : String → List ResourceDoc)
    (beh : ResourceDoc → Except PyError Unit) (argoBeh : Except PyError Unit)
    (req : ApiRequest) : ApiResult × List CliEv :=
  if req.type = "service" ∧ (req.port = none ∨ req.port = some 0) then
    (ApiResult.httpErr 400, [])
  else
    let _policy := resolveDeployPolicy req.type req.replicas req.autoscaling
      req.minReplicas req.maxReplicas req.cpuTarget
    match bindKwargs buildAndValidateParams apiBuildCallKwargs with
    | Except.error _ => (ApiResult.httpErr 500, [])
    | Except.ok _ =>
      match buildAndValidateResources render req.type with
      | BuildOutcome.exitCode c => (ApiResult.processExit c, [CliEv.buildCall])
      | BuildOutcome.resources docs =>
        if req.dryRun then (ApiResult.created true, [CliEv.buildCall])
        else
          let o := applyResources beh docs
          match o.2 with
          | some _ =>
            (ApiResult.httpErr 500, CliEv.buildCall :: o.1.map CliEv.cluster)
          | none =>
            if req.gitops then
              if req.gitRepo = none then
                -- the HTTPException(400) raised here sits inside the inner
                -- try, whose except-Exception handler re-raises it as a 500
                (ApiResult.httpErr 500,
                  CliEv.buildCall :: o.1.map CliEv.cluster)
              else
                match bindKwargs deployGitopsParams apiGitopsCallKwargs with
                | Except.error _ =>
                  (ApiResult.httpErr 500,
                    CliEv.buildCall :: o.1.map CliEv.cluster)
                | Except.ok _ =>
                  match deployGitops req.gitRepo req.gitPath argoBeh with
                  | Except.error _ =>
                    (ApiResult.httpErr 500,
                      CliEv.buildCall :: o.1.map CliEv.cluster)
                  | Except.ok _ =>
                    (ApiResult.created false,
                      CliEv.buildCall :: o.1.map CliEv.cluster ++
                        [CliEv.argocdApplied])
            else
              (ApiResult.created false, CliEv.buildCall :: o.1.map CliEv.cluster)

/-- Outcome of the Deployment probe in _detect_type: the read succeeded and
returned the value of the type label (none when the label is absent or the
metadata has no labels), or the read raised ApiException. -/
inductive ProbeResult where
  | found (label : Option String)
  | apiError
deriving DecidableEq, Repr

/-- Embedding of _detect_type (cli/commands/delete.py, lines 15-37): probe for
a Deployment and take its type label with default service; on ApiException,
probe for a Job and answer job; on ApiException again, answer None. The job
probe outcome is true when the read succeeds. -/
def detectType (probeDeployment : ProbeResult) (probeJob : Bool) :
    Option String :=
  match probeDeployment with
  | ProbeResult.found label => some (label.getD "service")
  | ProbeResult.apiError => if probeJob then some "job" else none

/-- Embedding of the type resolution in the delete command
(cli/commands/delete.py, lines 156-168): with type auto, a truthy detection
result is used (the empty string is falsy in Python and falls back to
service, as does None); an explicit type bypasses detection. -/
def resolveDeleteType (typeOpt : String) (probeDeployment : ProbeResult)
    (probeJob : Bool) : String :=
  if typeOpt = "auto" then
    match detectType probeDeployment probeJob with
    | some t => if t = "" then "service" else t
    | none => "service"
  else typeOpt

/-- Modelled from the spec: the detection rule exactly as the claim about
delete with type auto states it — probe for a Deployment first and take its
type label, defaulting to service when the label is absent; else probe for a
Job, yielding job; else default to service. -/
def claimedDeleteType (probeDeployment : ProbeResult) (probeJob : Bool) :
    String :=
  match probeDeployment with
  | ProbeResult.found label => label.getD "service"
  | ProbeResult.apiError => if probeJob then "job" else "service"

/-- The detection rule amended for the Python truthiness check in the delete
command: a type label that is present but empty also falls back to service,
like an absent label; otherwise exactly the claimed rule. -/
def claimedDeleteTypeAmended (probeDeployment : ProbeResult) (probeJob : Bool) :
    String :=
  match probeDeployment with
  | ProbeResult.found label =>
    match label with
    | some l => if l = "" then "service" else l
    | none => "service"
  | ProbeResult.apiError => if probeJob then "job" else "service"

/-- Cluster responses to the per-kind delete calls of _delete_resources: none
means the call succeeded, some s means it raised ApiException with HTTP
status s. -/
structure DeleteBeh where
  deployment : Option Int
  job : Option Int
  service : Option Int
  hpa : Option Int
  serviceMonitor : Option Int
  externalSecret : Option Int
deriving DecidableEq, Repr

/-- One guarded delete step of _delete_resources: on success the kind is
appended to the deleted list; an ApiException with status 404 is tolerated
without appending; any other status propagates. -/
def deleteStep (outcome : Option Int) (kindName : String) (acc : List String) :
    Except Int (List String) :=
  match outcome with
  | none => Except.ok (acc ++ [kindName])
  | some s => if s = 404 then Except.ok acc else Except.error s

/-- Embedding of _delete_resources (cli/commands/delete.py, lines 40-108):
Deployment is deleted for service and worker, Job for job, then Service, HPA
and ServiceMonitor unconditionally, each through the guarded step; the final
ExternalSecret delete appends on success but its exception handler does
nothing for any status, so every ApiException there is swallowed. -/
def deleteResources (appType : String) (b : DeleteBeh) :
    Except Int (List String) :=
  (if appType = "service" ∨ appType = "worker" then
      deleteStep b.deployment "Deployment" []
    else Except.ok []).bind fun d1 =>
  (if appType = "job" then deleteStep b.job "Job" d1 else Except.ok d1).bind
    fun d2 =>
  (deleteStep b.service "Service" d2).bind fun d3 =>
  (deleteStep b.hpa "HPA" d3).bind fun d4 =>
  (deleteStep b.serviceMonitor "ServiceMonitor" d4).bind fun d5 =>
  Except.ok
    (match b.externalSecret with
     | none => d5 ++ ["ExternalSecret"]
     | some _ => d5)

/-- A per-kind delete outcome the guarded steps tolerate: success or a 404. -/
def Tolerated (outcome : Option Int) : Prop :=
  outcome = none ∨ outcome = some 404

instance (outcome : Option Int) : Decidable (Tolerated outcome) := by
  unfold Tolerated
  infer_instance

end MiniIDP

namespace MiniIDP

/-- C2: the claim as stated is false. With autoscaling enabled, type service,
replicas 1, user-supplied minReplicas 10 and maxReplicas 3, the deploy command
re-applies the user values after the repair step, so the resolved policy is
min 10, max 3 with min > max. -/
theorem c2_counterexample :
    ¬ ((resolveDeployPolicy "service" 1 true (some 10) (some 3) none).minReplicas ≤
       (resolveDeployPolicy "service" 1 true (some 10) (some 3) none).maxReplicas) := by
  decide

/-- C2 (amended): the invariant min ≤ max does hold for every resolved policy
in which maxReplicas was not user-supplied, autoscaling is enabled and the type
is not job: there the final maximum is the repaired calculated maximum, which
the repair step keeps at or above the final minimum. -/
theorem c2_amended_min_le_max (type : String) (replicas : Int) (minReplicas : Option Int)
    (cpuTarget : Option Int) (htype : type ≠ "job") :
    (resolveDeployPolicy type replicas true minReplicas none cpuTarget).minReplicas ≤
    (resolveDeployPolicy type replicas true minReplicas none cpuTarget).maxReplicas := by
  have h10 : (10 : Int) ≤ max 10 (replicas * if type = "service" then 3 else 2) :=
    le_max_left _ _
  rcases minReplicas with _ | m <;>
    simp only [resolveDeployPolicy, calculateHpaDefaults, htype, ne_eq,
      not_false_iff, and_true, if_true, Option.getD_none, Option.getD_some,
      gt_iff_lt] <;>
  · generalize hq : Int.fdiv replicas 2 = q at *
    split <;> split <;> omega

/-- Witness for the amended C2 theorem at a concrete input: worker with
replicas 4 and explicit min 30, derived max; the repair yields max 60. -/
theorem c2_amended_min_le_max_witness :
    (resolveDeployPolicy "worker" 4 true (some 30) none none).minReplicas ≤
    (resolveDeployPolicy "worker" 4 true (some 30) none none).maxReplicas :=
  c2_amended_min_le_max "worker" 4 (some 30) none (by decide)

/-- C3: the claim as stated is false. For type service, replicas 1, explicit
minReplicas 100 and unspecified maxReplicas, the reference definition of the
claim gives max = max(10, 1 * 3) = 10, but the code additionally runs the
repair step and resolves max to 200. -/
theorem c3_counterexample :
    resolveDeployPolicy "service" 1 true (some 100) none none ≠
    claimedPolicy "service" 1 (some 100) none none := by
  decide

/-- C3 (amended): when autoscaling is enabled and the type is not job, the
resolved policy equals the reference definition amended with the repair
clause: explicit values win; a derived min is max(1, replicas // 2) for
replicas > 1 and 1 otherwise; a derived max is max(10, replicas * (3 if
service else 2)) unless the minimum exceeds it, in which case it is twice the
minimum; cpu is 60 for worker and 70 otherwise. -/
theorem c3_amended_policy_eq (type : String) (replicas : Int)
    (minReplicas maxReplicas cpuTarget : Option Int) (htype : type ≠ "job") :
    resolveDeployPolicy type replicas true minReplicas maxReplicas cpuTarget =
    claimedPolicyRepaired type replicas minReplicas maxReplicas cpuTarget := by
  rcases minReplicas with _ | m <;> rcases maxReplicas with _ | mx <;>
    simp [resolveDeployPolicy, calculateHpaDefaults, claimedPolicyRepaired,
      getCpuTargetDefault, htype]

/-- Witness for the amended C3 theorem at a concrete input: service with
replicas 4 and no explicit bounds resolves to min 2, max 12, cpu 70 on both
sides. -/
theorem c3_amended_policy_eq_witness :
    resolveDeployPolicy "service" 4 true none none none =
    claimedPolicyRepaired "service" 4 none none none :=
  c3_amended_policy_eq "service" 4 none none none (by decide)

/-- Claim C1: the claim as stated is false. The only invocation of
_build_resources, from _build_and_validate_resources, passes the keywords
logging and logging_environment, which are not parameters of
_build_resources, so the call raises TypeError at keyword binding and the
body where the unbound names would raise NameError is never entered: at the
concrete input type service the invocation raises TypeError on logging, not a
NameError. -/
theorem c1_counterexample :
    buildResourcesInvoke (fun _ => []) "service" =
      Except.error (PyError.typeError "logging") ∧
    raisesNameError (buildResourcesInvoke (fun _ => []) "service") = false :=
  ⟨rfl, rfl⟩

/-- Claim C1 (amended): every invocation of _build_resources performed by
_build_and_validate_resources raises TypeError at keyword binding on the
unexpected keyword logging, so _build_and_validate_resources never returns a
resource list and exits with code 1; were the body entered directly, each of
the three type branches would raise NameError on the unbound name logging;
consequently every CLI deploy invocation either fails option validation or
terminates with exit code 1 after the build step, with no cluster event in
its trace. -/
theorem c1_amended_build_always_fails (render : String → List ResourceDoc)
    (type : String) (beh : ResourceDoc → Except PyError Unit)
    (argoBeh : Except PyError Unit) (a : DeployArgs) :
    buildResourcesInvoke render type =
      Except.error (PyError.typeError "logging") ∧
    buildAndValidateResources render type = BuildOutcome.exitCode 1 ∧
    buildResourcesBody render "service" =
      Except.error (PyError.nameError "logging") ∧
    buildResourcesBody render "job" =
      Except.error (PyError.nameError "logging") ∧
    buildResourcesBody render "worker" =
      Except.error (PyError.nameError "logging") ∧
    (cliDeploy render beh argoBeh a = (CliOutcome.usageError, []) ∨
     cliDeploy render beh argoBeh a = (CliOutcome.exitCode 1, [CliEv.buildCall])) := by
  have hbind : bindKwargs buildResourcesParams buildResourcesCallKwargs =
      Except.error (PyError.typeError "logging") := by rfl
  have hinv : ∀ ty : String, buildResourcesInvoke render ty =
      Except.error (PyError.typeError "logging") := by
    intro ty
    simp [buildResourcesInvoke, hbind]
  have hbv : ∀ ty : String, buildAndValidateResources render ty =
      BuildOutcome.exitCode 1 := by
    intro ty
    simp [buildAndValidateResources, hinv ty]
  refine ⟨hinv type, hbv type, rfl, rfl, rfl, ?_⟩
  by_cases hval : a.type = "service" ∧ (a.port = none ∨ a.port = some 0)
  · exact Or.inl (by simp [cliDeploy, hval])
  · exact Or.inr (by simp [cliDeploy, hval, hbv a.type])

/-- Claim C4: the claim as stated is false. A document of kind ExternalSecret
has no handler in _apply_single_resource and is only echoed as skipped: even
with a cluster that would accept every call, applying the single-document
list produces one skipped event and no applied event, so no generic
custom-resource path exists in the applier. -/
theorem c4_counterexample :
    applyResources (fun _ => Except.ok ())
        [ResourceDoc.mk "ExternalSecret" "creds"] =
      ([ApplyEv.skippedKind "ExternalSecret"], none) ∧
    ApplyEv.applied "ExternalSecret" "creds" ∉
      (applyResources (fun _ => Except.ok ())
        [ResourceDoc.mk "ExternalSecret" "creds"]).1 := by
  refine ⟨rfl, ?_⟩
  decide

/-- Claim C4 (amended): during apply, every resource document whose kind is
not one of the six fixed kinds is skipped with a warning and is never applied
to the cluster; there is no generic custom-resource pass (the ArgoCD
application is applied only by the separate GitOps step). -/
theorem c4_amended_unrecognized_skipped (beh : ResourceDoc → Except PyError Unit)
    (r : ResourceDoc) (h : r.kind ∉ fixedKinds) :
    applySingleResource beh r = (ApplyEv.skippedKind r.kind, none) := by
  simp [applySingleResource, List.contains, h]

/-- Witness for the amended C4 theorem at a concrete input: an ExternalSecret
document is skipped. -/
theorem c4_amended_unrecognized_skipped_witness :
    applySingleResource (fun _ => Except.ok ())
        (ResourceDoc.mk "ExternalSecret" "creds") =
      (ApplyEv.skippedKind "ExternalSecret", none) :=
  c4_amended_unrecognized_skipped (fun _ => Except.ok ())
    (ResourceDoc.mk "ExternalSecret" "creds") (by decide)

/-- Claim C5: the applier attempts documents strictly in sequence and the
first application failure aborts the rest: if every document in the prefix
applies cleanly and the next document raises, the run records exactly the
events of the prefix followed by the failure event, propagates the error, and
the documents after the failing one contribute nothing (they are never
attempted). -/
theorem c5_fail_fast (beh : ResourceDoc → Except PyError Unit)
    (pre : List ResourceDoc) (r : ResourceDoc) (post : List ResourceDoc)
    (e : PyError)
    (hpre : ∀ d ∈ pre, (applySingleResource beh d).2 = none)
    (hr : (applySingleResource beh r).2 = some e) :
    applyResources beh (pre ++ r :: post) =
      (pre.map (fun d => (applySingleResource beh d).1) ++
        [(applySingleResource beh r).1], some e) := by
  induction pre with
  | nil =>
    have h1 : applySingleResource beh r =
        ((applySingleResource beh r).1, some e) := by
      rw [← hr]
    simp only [List.nil_append, List.map_nil, applyResources]
    rw [h1]
  | cons d ds ih =>
    have hd : applySingleResource beh d =
        ((applySingleResource beh d).1, none) := by
      rw [← hpre d (List.mem_cons_self d ds)]
    have ih2 := ih (fun x hx => hpre x (List.mem_cons_of_mem d hx))
    have ih3 : applyResources beh (List.append ds (r :: post)) =
        (List.map (fun x => (applySingleResource beh x).1) ds ++
          [(applySingleResource beh r).1], some e) := ih2
    simp only [List.cons_append, applyResources]
    rw [hd]
    simp only [List.map_cons, List.cons_append]
    rw [ih3]

/-- Witness for the C5 theorem: three documents where the cluster rejects the
second; exactly two events are recorded and the third document is never
attempted. -/
theorem c5_fail_fast_witness :
    applyResources
        (fun d => if d.name = "b" then Except.error PyError.valueError
                  else Except.ok ())
        [ResourceDoc.mk "Deployment" "a", ResourceDoc.mk "Service" "b",
         ResourceDoc.mk "Service" "c"] =
      ([ApplyEv.applied "Deployment" "a", ApplyEv.failedApply "Service" "b"],
        some PyError.valueError) := by
  have h := c5_fail_fast
    (fun d => if d.name = "b" then Except.error PyError.valueError
              else Except.ok ())
    [ResourceDoc.mk "Deployment" "a"] (ResourceDoc.mk "Service" "b")
    [ResourceDoc.mk "Service" "c"] PyError.valueError (by decide) (by decide)
  simpa using h

/-- Claim C6: in _deploy_to_cluster, a GitOps registration failure after a
successful direct apply is caught and reported as a warning: the outcome is a
normal return (no exit code, no propagated exception) and the apply events of
the resources already pushed to the cluster are exactly those of the
successful apply run, unchanged. -/
theorem c6_gitops_failure_is_warning (beh : ResourceDoc → Except PyError Unit)
    (argoBeh : Except PyError Unit) (docs : List ResourceDoc)
    (gitRepo gitPath : Option String) (e : PyError)
    (happly : (applyResources beh docs).2 = none)
    (hgit : deployGitops gitRepo gitPath argoBeh = Except.error e) :
    deployToCluster beh argoBeh docs true gitRepo gitPath =
      { events := (applyResources beh docs).1, gitopsApplied := false,
        gitopsWarning := true, exitCode := none } := by
  simp [deployToCluster, happly, hgit]

/-- Witness for the C6 theorem: one Deployment applies cleanly, the ArgoCD
registration raises, and the outcome is a warning with the applied event kept. -/
theorem c6_gitops_failure_is_warning_witness :
    deployToCluster (fun _ => Except.ok ()) (Except.error PyError.valueError)
        [ResourceDoc.mk "Deployment" "a"] true (some "https://git.example/repo")
        none =
      { events := [ApplyEv.applied "Deployment" "a"], gitopsApplied := false,
        gitopsWarning := true, exitCode := none } := by
  have h := c6_gitops_failure_is_warning (fun _ => Except.ok ())
    (Except.error PyError.valueError) [ResourceDoc.mk "Deployment" "a"]
    (some "https://git.example/repo") none PyError.valueError (by decide) rfl
  simpa using h

/-- Claim C7: a deployment request of type service without a port fails
validation immediately, in both the CLI (click UsageError) and the API (HTTP
400), with an empty trace: the resource builder is never entered and no
cluster call is attempted. -/
theorem c7_service_requires_port (render : String → List ResourceDoc)
    (beh : ResourceDoc → Except PyError Unit) (argoBeh : Except PyError Unit)
    (a : DeployArgs) (req : ApiRequest)
    (ha : a.type = "service") (hp : a.port = none)
    (hr : req.type = "service") (hq : req.port = none) :
    cliDeploy render beh argoBeh a = (CliOutcome.usageError, []) ∧
    apiCreateDeployment render beh argoBeh req = (ApiResult.httpErr 400, []) := by
  constructor
  · simp [cliDeploy, ha, hp]
  · simp [apiCreateDeployment, hr, hq]

/-- Witness for the C7 theorem at concrete service requests without a port. -/
theorem c7_service_requires_port_witness :
    cliDeploy (fun _ => []) (fun _ => Except.ok ()) (Except.ok ())
        { type := "service", port := none, replicas := 1, autoscaling := true,
          minReplicas := none, maxReplicas := none, cpuTarget := none,
          dryRun := false, gitops := false, gitRepo := none, gitPath := none } =
      (CliOutcome.usageError, []) ∧
    apiCreateDeployment (fun _ => []) (fun _ => Except.ok ()) (Except.ok ())
        { type := "service", port := none, replicas := 1, autoscaling := true,
          minReplicas := none, maxReplicas := none, cpuTarget := none,
          dryRun := true, gitops := false, gitRepo := none, gitPath := none } =
      (ApiResult.httpErr 400, []) :=
  c7_service_requires_port (fun _ => []) (fun _ => Except.ok ()) (Except.ok ())
    { type := "service", port := none, replicas := 1, autoscaling := true,
      minReplicas := none, maxReplicas := none, cpuTarget := none,
      dryRun := false, gitops := false, gitRepo := none, gitPath := none }
    { type := "service", port := none, replicas := 1, autoscaling := true,
      minReplicas := none, maxReplicas := none, cpuTarget := none,
      dryRun := true, gitops := false, gitRepo := none, gitPath := none }
    rfl rfl rfl rfl

/-- Claim C8: the claim as stated is false. When the Deployment probe finds a
type label that is present but empty, the claimed rule takes the label value
(the empty string), but the delete command treats the empty detection result
as falsy and resolves the type to service. -/
theorem c8_counterexample :
    resolveDeleteType "auto" (ProbeResult.found (some "")) true ≠
      claimedDeleteType (ProbeResult.found (some "")) true ∧
    resolveDeleteType "auto" (ProbeResult.found (some "")) true = "service" := by
  constructor
  · decide
  · rfl

/-- Claim C8 (amended): with delete type auto, the resolved application type
follows the claimed detection rule with one addition — a type label that is
present but empty also falls back to service, like an absent label: the
Deployment probe is consulted first and its nonempty type label used, then
the Job probe yields job, and service is the default in every remaining
case. -/
theorem c8_amended_auto_type_detection (probeDeployment : ProbeResult)
    (probeJob : Bool) :
    resolveDeleteType "auto" probeDeployment probeJob =
      claimedDeleteTypeAmended probeDeployment probeJob := by
  cases probeDeployment with
  | found label =>
    cases label with
    | none => rfl
    | some l =>
      by_cases hl : l = "" <;>
        simp [resolveDeleteType, detectType, claimedDeleteTypeAmended, hl]
  | apiError =>
    cases probeJob <;> rfl

/-- Claim C9: every POST to the deployments API that passes the service-port
validation answers HTTP 500 with an empty trace, dry-run included: the call
of _build_and_validate_resources binds the unexpected keyword metrics_path
and raises TypeError before the builder body, the dry-run check or any
cluster call is reached. -/
theorem c9_api_create_always_500 (render : String → List ResourceDoc)
    (beh : ResourceDoc → Except PyError Unit) (argoBeh : Except PyError Unit)
    (req : ApiRequest)
    (hvalid : ¬ (req.type = "service" ∧ (req.port = none ∨ req.port = some 0))) :
    apiCreateDeployment render beh argoBeh req = (ApiResult.httpErr 500, []) := by
  have hbind : bindKwargs buildAndValidateParams apiBuildCallKwargs =
      Except.error (PyError.typeError "metrics_path") := by rfl
  simp [apiCreateDeployment, hvalid, hbind]

/-- Witness for the C9 theorem: a dry-run job request still answers 500. -/
theorem c9_api_create_always_500_witness :
    apiCreateDeployment (fun _ => []) (fun _ => Except.ok ()) (Except.ok ())
        { type := "job", port := none, replicas := 1, autoscaling := false,
          minReplicas := none, maxReplicas := none, cpuTarget := none,
          dryRun := true, gitops := false, gitRepo := none, gitPath := none } =
      (ApiResult.httpErr 500, []) :=
  c9_api_create_always_500 (fun _ => []) (fun _ => Except.ok ()) (Except.ok ())
    { type := "job", port := none, replicas := 1, autoscaling := false,
      minReplicas := none, maxReplicas := none, cpuTarget := none,
      dryRun := true, gitops := false, gitRepo := none, gitPath := none }
    (by decide)

/-- Claim C10: in _delete_resources an ApiException from the ExternalSecret
delete is swallowed for every status code (the deletion still returns
normally and ExternalSecret is never recorded as deleted), while for each of
the other kinds deleted — Deployment, Job, Service, HPA, ServiceMonitor — a
non-404 status propagates out of the function. -/
theorem c10_delete_error_handling (appType : String) (b : DeleteBeh) (s t : Int)
    (ht : t ≠ 404)
    (hd : Tolerated b.deployment) (hj : Tolerated b.job)
    (hsv : Tolerated b.service) (hh : Tolerated b.hpa)
    (hm : Tolerated b.serviceMonitor) :
    (∃ l, deleteResources appType { b with externalSecret := some s } =
        Except.ok l ∧ "ExternalSecret" ∉ l) ∧
    deleteResources "service" { b with deployment := some t } =
      Except.error t ∧
    deleteResources "job" { b with job := some t } = Except.error t ∧
    deleteResources appType { b with service := some t } = Except.error t ∧
    deleteResources appType { b with hpa := some t } = Except.error t ∧
    deleteResources appType { b with serviceMonitor := some t } =
      Except.error t := by
  refine ⟨?_, ?_, ?_, ?_, ?_, ?_⟩
  · rcases hd with hd | hd <;> rcases hj with hj | hj <;>
      rcases hsv with hsv | hsv <;> rcases hh with hh | hh <;>
        rcases hm with hm | hm <;>
          by_cases h1 : appType = "service" ∨ appType = "worker" <;>
            by_cases h2 : appType = "job" <;>
              simp [deleteResources, deleteStep, Except.bind, hd, hj, hsv, hh,
                hm, h1, h2]
  · simp [deleteResources, deleteStep, Except.bind, ht]
  · simp [deleteResources, deleteStep, Except.bind, ht]
  · rcases hd with hd | hd <;> rcases hj with hj | hj <;>
      by_cases h1 : appType = "service" ∨ appType = "worker" <;>
        by_cases h2 : appType = "job" <;>
          simp [deleteResources, deleteStep, Except.bind, hd, hj, ht, h1, h2]
  · rcases hd with hd | hd <;> rcases hj with hj | hj <;>
      rcases hsv with hsv | hsv <;>
        by_cases h1 : appType = "service" ∨ appType = "worker" <;>
          by_cases h2 : appType = "job" <;>
            simp [deleteResources, deleteStep, Except.bind, hd, hj, hsv, ht,
              h1, h2]
  · rcases hd with hd | hd <;> rcases hj with hj | hj <;>
      rcases hsv with hsv | hsv <;> rcases hh with hh | hh <;>
        by_cases h1 : appType = "service" ∨ appType = "worker" <;>
          by_cases h2 : appType = "job" <;>
            simp [deleteResources, deleteStep, Except.bind, hd, hj, hsv, hh,
              ht, h1, h2]

/-- Witness for the C10 theorem at a concrete behaviour: all guarded deletes
succeed, the ExternalSecret delete raises status 500 and is swallowed, and a
418 on any guarded kind would propagate. -/
theorem c10_delete_error_handling_witness :
    (∃ l, deleteResources "service"
        { deployment := none, job := none, service := none, hpa := none,
          serviceMonitor := none, externalSecret := some 500 } =
        Except.ok l ∧ "ExternalSecret" ∉ l) ∧
    deleteResources "service"
        { deployment := some 418, job := none, service := none, hpa := none,
          serviceMonitor := none, externalSecret := none } = Except.error 418 ∧
    deleteResources "job"
        { deployment := none, job := some 418, service := none, hpa := none,
          serviceMonitor := none, externalSecret := none } = Except.error 418 ∧
    deleteResources "service"
        { deployment := none, job := none, service := some 418, hpa := none,
          serviceMonitor := none, externalSecret := none } = Except.error 418 ∧
    deleteResources "service"
        { deployment := none, job := none, service := none, hpa := some 418,
          serviceMonitor := none, externalSecret := none } = Except.error 418 ∧
    deleteResources "service"
        { deployment := none, job := none, service := none, hpa := none,
          serviceMonitor := some 418, externalSecret := none } =
      Except.error 418 := by
  have h := c10_delete_error_handling "service"
    { deployment := none, job := none, service := none, hpa := none,
      serviceMonitor := none, externalSecret := none } 500 418
    (by decide) (Or.inl rfl) (Or.inl rfl) (Or.inl rfl) (Or.inl rfl)
    (Or.inl rfl)
  simpa using h

end MiniIDP
